import Mathlib

/-!
Shallow embedding of `dist/LightSnow-Fx.js` (LightSnowFX) and proofs about the
per-particle animation state machine, the trail/impact rendering math, the
configuration handling of `createInstance`, and the scheduling model
(`pause` / `resume` / `loop`).

Modelling conventions:
* JavaScript numbers are modelled by `ℚ` (exact arithmetic; the claims under
  study are robust rational statements, no float rounding is involved).
* `Math.random()` results are modelled by injected values `u ∈ [0, 1)`.
* `Math.sin(phase)` is not computable over `ℚ`; wherever the source uses it
  (only in the twinkle factor of the trail opacity) it is abstracted as an
  input `sinPhase` constrained to `[-1, 1]` in theorems.
* The constant `Math.PI * 2`, used only as the upper bound of the initial
  twinkle-phase draw, is irrational and is abstracted as a parameter `tau`.
* Painting is side-effect free in the model: the quantities handed to the
  canvas fills (positions, radii, rgba alpha values) are computed by pure
  functions, and "a segment is painted" is the boolean guard the source uses
  before issuing the fill.
-/

namespace LightSnowFx

/-- Embedding of `clamp(v, a, b) = Math.max(a, Math.min(b, v))`. -/
def clamp (v a b : ℚ) : ℚ := max a (min b v)

/-- Embedding of `rand(a, b) = a + Math.random() * (b - a)`, with the call to
`Math.random()` modelled by the injected value `u`. -/
def rand (u a b : ℚ) : ℚ := a + u * (b - a)

/-- Numeric configuration fields of the `DEFAULTS` object (after the
`Object.assign` merge in `createInstance`).  Host/DOM fields (`target`,
`canvasClass`, `zIndex`, `retina`, `maxDPR`, `glow`) only govern external
collaborators and are modelled separately (see `createInstance`).
`streams` is an integer so that negative configured counts are expressible;
`spacing` is `Option` because the source uses `null` as the default. -/
structure Config where
  streams : ℤ
  speedMin : ℚ
  speedMax : ℚ
  windMin : ℚ
  windMax : ℚ
  segW : ℚ
  segHead : ℚ
  segBody : ℚ
  spacing : Option ℚ
  trailLeds : ℕ
  headBoost : ℚ
  twinkle : ℚ
  meltZone : ℚ
  flashTime : ℚ
  meltTime : ℚ
  spawnGapMin : ℚ
  spawnGapMax : ℚ
  flashDotRadius : ℚ
deriving DecidableEq

/-- The numeric part of the source's `DEFAULTS` object. -/
def DEFAULTS : Config where
  streams := 34
  speedMin := 260
  speedMax := 560
  windMin := -25
  windMax := 25
  segW := 18/5
  segHead := 20
  segBody := 16
  spacing := none
  trailLeds := 14
  headBoost := 13/10
  twinkle := 9/50
  meltZone := 48
  flashTime := 7/50
  meltTime := 11/20
  spawnGapMin := 2/25
  spawnGapMax := 3/5
  flashDotRadius := 13/2

/-- Embedding of `const spacing = (opt.spacing == null) ? SEG.hBody : opt.spacing`. -/
def spacingOf (opt : Config) : ℚ := opt.spacing.getD opt.segBody

/-- Lifecycle state of one stream, the source's string field
`state ∈ {fall, flash, melt, wait}`. -/
inductive SState where
  | fall
  | flash
  | melt
  | wait
deriving DecidableEq

/-- One falling streak, the record produced by `makeStream`. -/
structure Stream where
  x : ℚ
  y : ℚ
  vy : ℚ
  vx : ℚ
  phase : ℚ
  state : SState
  t : ℚ
  wait : ℚ
deriving DecidableEq

/-- The `Math.random()` draws a single `drawStream` step may consume:
`uGap` for the respawn-gap draw at the melt→wait transition, and `u1 … u5`
for the `makeStream(false)` call at the wait→fall transition. -/
structure Rng where
  uGap : ℚ
  u1 : ℚ
  u2 : ℚ
  u3 : ℚ
  u4 : ℚ
  u5 : ℚ
deriving DecidableEq

/-- Embedding of `makeStream(first)`.  `tau` abstracts the irrational constant
`Math.PI * 2` bounding the initial phase draw; `W`, `H` are the surface
dimensions captured by the closure; `u1 … u5` are the five `Math.random()`
calls in source order. -/
def makeStream (opt : Config) (tau W H : ℚ) (first : Bool) (u1 u2 u3 u4 u5 : ℚ) : Stream where
  x := rand u1 0 W
  y := if first then rand u2 (-H) H else rand u2 (-H * (7/10)) (-60)
  vy := rand u3 opt.speedMin opt.speedMax
  vx := rand u4 opt.windMin opt.windMax
  phase := rand u5 0 tau
  state := SState.fall
  t := 0
  wait := 0

/-- Embedding of the two sequential horizontal wrap conditionals of the fall
branch: `if (s.x < -50) s.x = W + 50; if (s.x > W + 50) s.x = -50;`
(the second test reads the value possibly written by the first). -/
def xWrap (W x : ℚ) : ℚ :=
  let x1 := if x < -50 then W + 50 else x
  if x1 > W + 50 then -50 else x1

/-- State effect of one `drawStream(s, dt)` call (the painting issued along the
way is modelled by the pure render functions below).  Field updates mirror the
source's mutations branch by branch. -/
def drawStream (opt : Config) (tau W H : ℚ) (r : Rng) (dt : ℚ) (s : Stream) : Stream :=
  let ph := s.phase + (23/20) * dt
  match s.state with
  | SState.fall =>
    let y := s.y + s.vy * dt
    let x := xWrap W (s.x + s.vx * dt)
    if y > H - 2 then
      { s with phase := ph, x := x, y := y, state := SState.flash, t := 0 }
    else
      { s with phase := ph, x := x, y := y }
  | SState.flash =>
    let t := s.t + dt
    if t ≥ opt.flashTime then
      { s with phase := ph, state := SState.melt, t := 0 }
    else
      { s with phase := ph, t := t }
  | SState.melt =>
    let t := s.t + dt
    let p := clamp (t / opt.meltTime) 0 1
    if p ≥ 1 then
      { s with phase := ph, state := SState.wait,
               wait := rand r.uGap opt.spawnGapMin opt.spawnGapMax, t := 0 }
    else
      { s with phase := ph, t := t }
  | SState.wait =>
    let w := s.wait - dt
    if w ≤ 0 then
      let ns := makeStream opt tau W H false r.u1 r.u2 r.u3 r.u4 r.u5
      { s with phase := ns.phase, x := ns.x, y := ns.y, vy := ns.vy, vx := ns.vx,
               state := SState.fall, t := 0, wait := w }
    else
      { s with phase := ph, wait := w }

/-- Embedding of `const headIndex = Math.floor(s.y / spacing)` for a fall-state
render with the particle at height `y`. -/
def headIndex (opt : Config) (y : ℚ) : ℤ := ⌊y / spacingOf opt⌋

/-- Candidate y coordinate of trail segment `i`:
`ly = (headIndex - i) * spacing`. -/
def segY (opt : Config) (y : ℚ) (i : ℕ) : ℚ :=
  ((headIndex opt y - (i : ℤ) : ℤ) : ℚ) * spacingOf opt

/-- Opacity computed for trail segment `i` of a fall-state particle at height
`y`, following the source line by line: base fade `1 - i / trailLeds`, head
boost `Math.min(1, a * headBoost)` for `i = 0`, melt-zone attenuation, then
`a *= 0.92 * tw` with `tw = 1 + Math.sin(phase) * twinkle` (here `sinPhase`
stands for `Math.sin(phase)`). -/
def segOpacity (opt : Config) (H sinPhase y : ℚ) (i : ℕ) : ℚ :=
  let tw := 1 + sinPhase * opt.twinkle
  let a := 1 - (i : ℚ) / (opt.trailLeds : ℚ)
  let a := if i = 0 then min 1 (a * opt.headBoost) else a
  let meltStart := H - opt.meltZone
  let ly := segY opt y i
  let a := if ly > meltStart then a * (1 - min 1 ((ly - meltStart) / opt.meltZone)) else a
  a * ((23/25) * tw)

/-- Whether trail segment `i` is actually painted by the fall branch: the
source `continue`s (skips the `drawSegment` call) when the candidate y is
outside `[-40, H + 40]`, and again when the computed opacity is `≤ 0`. -/
def segPainted (opt : Config) (H sinPhase y : ℚ) (i : ℕ) : Bool :=
  if segY opt y i < -40 ∨ segY opt y i > H + 40 then false
  else if segOpacity opt H sinPhase y i ≤ 0 then false
  else true

/-- Melt progress at accumulated phase time `t`:
`p = clamp(t / meltTime, 0, 1)`. -/
def meltProgress (opt : Config) (t : ℚ) : ℚ := clamp (t / opt.meltTime) 0 1

/-- Radius of the puddle circle the melt branch paints at accumulated phase
time `t`: the source's `10 * (1 + p * 1.0)`. -/
def meltRadius (opt : Config) (t : ℚ) : ℚ := 10 * (1 + meltProgress opt t * 1)

/-- Alpha of the rgba fill of the puddle circle at accumulated phase time `t`:
the source's `0.18 * a` with `a = 1 - p`. -/
def meltAlpha (opt : Config) (t : ℚ) : ℚ := (9/50) * (1 - meltProgress opt t)

/-- Synchronous failures of `createInstance`.  `configError` is the failure
kind the specification prescribes for invalid numeric configurations; it is
included so that statements about it are expressible — the source has no code
path that raises it. -/
inductive InitError where
  | configError
  | targetNotFound
  | contextUnavailable
deriving DecidableEq

/-- JavaScript `ToLength` clamping applied by `Array.from({ length: n })`:
negative lengths become `0`. -/
def toLength (n : ℤ) : ℕ := n.toNat

/-- Configuration handling of `createInstance(userOpts)`: after the
`Object.assign` merge (here: `opt` is the already-merged `Config`), the only
synchronous failures are the two explicit `throw`s — target resolution
(`targetFound`) and 2d-context acquisition (`ctxOk`).  On success the particle
array is allocated with `Array.from({ length: opt.streams })`, i.e. with
`toLength opt.streams` entries.  No numeric field is inspected, so the result
is the number of particles allocated. -/
def createInstance (opt : Config) (targetFound ctxOk : Bool) : Except InitError ℕ :=
  if targetFound = false then Except.error InitError.targetNotFound
  else if ctxOk = false then Except.error InitError.contextUnavailable
  else Except.ok (toLength opt.streams)

/-- Scheduling state of a running instance: the closure variables `running`,
`last`, `raf`, the number of outstanding `requestAnimationFrame` callbacks
(`pending`), and the particle array. -/
structure Inst where
  running : Bool
  last : ℚ
  raf : ℕ
  pending : ℕ
  streams : List Stream
deriving DecidableEq

/-- Embedding of `pause()`: a no-op when already paused, otherwise clears
`running` and cancels the scheduled callback. -/
def pause (inst : Inst) : Inst :=
  if inst.running = false then inst
  else { inst with running := false, pending := inst.pending - 1 }

/-- Embedding of `resume()`: a no-op when already running, otherwise sets
`running`, resets `last` to `performance.now()` (the argument `now`) and
schedules a fresh callback (handle `h`). -/
def resume (now : ℚ) (h : ℕ) (inst : Inst) : Inst :=
  if inst.running = true then inst
  else { inst with running := true, last := now, raf := h, pending := inst.pending + 1 }

/-- The frame delta of `loop`: `Math.min(40, now - last) / 1000`. -/
def dtOf (now last : ℚ) : ℚ := min 40 (now - last) / 1000

/-- State effect of one `loop(now)` callback: bail out when not running,
otherwise compute `dt = Math.min(40, now - last) / 1000`, set `last = now`,
advance every stream by that same `dt` in index order, and re-schedule
(handle `h`).  `rs i` injects the random draws particle `i` may consume. -/
def loop (opt : Config) (tau W H : ℚ) (rs : ℕ → Rng) (now : ℚ) (h : ℕ) (inst : Inst) : Inst :=
  if inst.running = false then inst
  else
    let dt := min 40 (now - inst.last) / 1000
    { inst with
        last := now
        raf := h
        streams := inst.streams.mapIdx (fun i s => drawStream opt tau W H (rs i) dt s) }

/-- Behaviour of the first wrap conditional alone: an x below the left margin
is relocated to the right margin (the second conditional then does not fire). -/
theorem xWrap_low {W x : ℚ} (h : x < -50) : xWrap W x = W + 50 := by
  simp [xWrap, h]

/-- An x beyond the right margin is relocated to the left margin (given a
nonnegative width the first conditional cannot have fired). -/
theorem xWrap_high {W x : ℚ} (hW : 0 ≤ W) (h : W + 50 < x) : xWrap W x = -50 := by
  have h1 : ¬ x < -50 := by linarith
  simp [xWrap, h1, h]

/-- An x inside the margin band is left unchanged. -/
theorem xWrap_mid {W x : ℚ} (h1 : -50 ≤ x) (h2 : x ≤ W + 50) : xWrap W x = x := by
  have h1' : ¬ x < -50 := not_lt.mpr h1
  have h2' : ¬ x > W + 50 := not_lt.mpr h2
  simp [xWrap, h1', h2']

/-- After the two wrap conditionals, x lies in the margin band. -/
theorem xWrap_bounds {W x : ℚ} (hW : 0 ≤ W) :
    -50 ≤ xWrap W x ∧ xWrap W x ≤ W + 50 := by
  rcases lt_or_le x (-50) with h | h
  · rw [xWrap_low h]
    constructor <;> linarith
  · rcases le_or_lt x (W + 50) with h2 | h2
    · rw [xWrap_mid h h2]
      exact ⟨h, h2⟩
    · rw [xWrap_high hW h2]
      constructor <;> linarith

/-- Bounding a product of a factor in `[0, 1]` with a factor in `[0, B]`. -/
theorem mul_unit_scale {a c B : ℚ} (ha0 : 0 ≤ a) (ha1 : a ≤ 1) (hc0 : 0 ≤ c)
    (hcB : c ≤ B) : 0 ≤ a * c ∧ a * c ≤ B := by
  constructor
  · exact mul_nonneg ha0 hc0
  · nlinarith

/-- C2 (counterexample): a configuration with a negative particle count
(`streams = -5`), an inverted speed range, a non-positive flash duration and
an inverted respawn-gap range is accepted without any error: `createInstance`
succeeds and allocates zero particles (JS `Array.from` length clamping),
instead of failing with a configuration error. -/
theorem c2_invalid_config_accepted :
    createInstance
      { DEFAULTS with streams := -5, speedMin := 10, speedMax := 0,
                      flashTime := 0, spawnGapMin := 1, spawnGapMax := 0 } true true
      = Except.ok 0 := rfl

/-- C2 (amended): `createInstance` performs no numeric configuration
validation at all.  Whenever the target resolves and a 2d context is
available it succeeds for every configuration, allocating
`toLength streams = max(streams, 0)` particles, and no combination of inputs
ever produces a configuration error: the only synchronous failures are
target-not-found and context-unavailable. -/
theorem c2_no_config_validation (opt : Config) :
    createInstance opt true true = Except.ok (toLength opt.streams) ∧
    ∀ targetFound ctxOk : Bool,
      createInstance opt targetFound ctxOk ≠ Except.error InitError.configError := by
  constructor
  · rfl
  · intro tf cO
    cases tf <;> cases cO <;> simp [createInstance]

/-- C4: a flashing particle transitions to melting exactly in the update step
in which the accumulated phase time first reaches the flash duration, with a
closed upper bound: if `t + dt ≥ flashTime` the state becomes melt (with the
phase clock reset) in that same step, and if `t + dt < flashTime` the particle
stays flashing with clock `t + dt`. -/
theorem c4_flash_to_melt_at_bound (opt : Config) (tau W H : ℚ) (r : Rng) (dt : ℚ)
    (s : Stream) (hs : s.state = SState.flash) :
    (opt.flashTime ≤ s.t + dt →
      (drawStream opt tau W H r dt s).state = SState.melt ∧
      (drawStream opt tau W H r dt s).t = 0) ∧
    (s.t + dt < opt.flashTime →
      (drawStream opt tau W H r dt s).state = SState.flash ∧
      (drawStream opt tau W H r dt s).t = s.t + dt) := by
  constructor
  · intro hge
    simp [drawStream, hs, ge_iff_le, hge]
  · intro hlt
    simp [drawStream, hs, ge_iff_le, not_le.mpr hlt]

/-- C4 (witness): with the default flash duration `0.14`, a flashing particle
whose clock reads exactly `0.07 + 0.07 = 0.14` transitions to melting on that
very tick. -/
theorem c4_flash_to_melt_at_bound_witness :
    (⟨50, 99, 0, 0, 0, SState.flash, 7/100, 0⟩ : Stream).state = SState.flash ∧
    DEFAULTS.flashTime ≤ (7/100 : ℚ) + 7/100 ∧
    (drawStream DEFAULTS 0 100 100 ⟨0, 0, 0, 0, 0, 0⟩ (7/100)
        ⟨50, 99, 0, 0, 0, SState.flash, 7/100, 0⟩).state = SState.melt ∧
    (drawStream DEFAULTS 0 100 100 ⟨0, 0, 0, 0, 0, 0⟩ (7/100)
        ⟨50, 99, 0, 0, 0, SState.flash, 7/100, 0⟩).t = 0 := by
  refine ⟨rfl, by norm_num [DEFAULTS], ?_, ?_⟩
  · exact ((c4_flash_to_melt_at_bound DEFAULTS 0 100 100 ⟨0, 0, 0, 0, 0, 0⟩ (7/100)
      ⟨50, 99, 0, 0, 0, SState.flash, 7/100, 0⟩ rfl).1 (by norm_num [DEFAULTS])).1
  · exact ((c4_flash_to_melt_at_bound DEFAULTS 0 100 100 ⟨0, 0, 0, 0, 0, 0⟩ (7/100)
      ⟨50, 99, 0, 0, 0, SState.flash, 7/100, 0⟩ rfl).1 (by norm_num [DEFAULTS])).2

/-- C9: `resume()` on a running instance is a no-op (the state, including the
count of outstanding scheduling handles, is unchanged), so calling `resume()`
twice is idempotent; an effective resume on a paused instance sets `running`,
schedules exactly one fresh callback, and resets the last-tick timestamp to
the resume instant, so the next frame delta is measured from the resume
instant. -/
theorem c9_resume_idempotent_fresh_dt (inst instP : Inst) (now nowNext : ℚ) (h : ℕ)
    (hrun : inst.running = true) (hpause : instP.running = false) :
    resume now h inst = inst ∧
    (∀ now2 h2, resume now2 h2 (resume now h instP) = resume now h instP) ∧
    (resume now h instP).running = true ∧
    (resume now h instP).last = now ∧
    (resume now h instP).pending = instP.pending + 1 ∧
    dtOf nowNext (resume now h instP).last = min 40 (nowNext - now) / 1000 := by
  refine ⟨by simp [resume, hrun], ?_, ?_, ?_, ?_, ?_⟩ <;>
    simp [resume, hpause, dtOf]

/-- C9 (witness): a concrete running instance is untouched by `resume`, and a
concrete paused instance resumed at time `500` has its timestamp reset so the
next delta at time `516` is `min(40, 16)/1000`. -/
theorem c9_resume_idempotent_fresh_dt_witness :
    resume 500 7 ⟨true, 3, 1, 1, []⟩ = (⟨true, 3, 1, 1, []⟩ : Inst) ∧
    (∀ now2 h2, resume now2 h2 (resume 500 7 ⟨false, 3, 1, 0, []⟩)
      = resume 500 7 ⟨false, 3, 1, 0, []⟩) ∧
    (resume 500 7 ⟨false, 3, 1, 0, []⟩).running = true ∧
    (resume 500 7 ⟨false, 3, 1, 0, []⟩).last = 500 ∧
    (resume 500 7 ⟨false, 3, 1, 0, []⟩).pending = (⟨false, 3, 1, 0, []⟩ : Inst).pending + 1 ∧
    dtOf 516 (resume 500 7 ⟨false, 3, 1, 0, []⟩).last = min 40 (516 - 500) / 1000 :=
  c9_resume_idempotent_fresh_dt ⟨true, 3, 1, 1, []⟩ ⟨false, 3, 1, 0, []⟩ 500 516 7 rfl rfl

/-- C10: a `loop` callback on a running instance advances every particle with
the same frame delta `min(40, now - last) / 1000`, and that delta never
exceeds `0.04` seconds however much wall-clock time elapsed since the
previous frame. -/
theorem c10_frame_delta_cap (opt : Config) (tau W H : ℚ) (rs : ℕ → Rng) (now : ℚ)
    (h : ℕ) (inst : Inst) (hrun : inst.running = true) :
    (loop opt tau W H rs now h inst).streams
      = inst.streams.mapIdx
          (fun i s => drawStream opt tau W H (rs i) (dtOf now inst.last) s) ∧
    dtOf now inst.last ≤ 1/25 := by
  constructor
  · simp [loop, hrun, dtOf]
  · unfold dtOf
    have h1 : min 40 (now - inst.last) ≤ 40 := min_le_left _ _
    linarith

/-- C10 (witness): after a 50-second stall (`now - last = 50000`), the delta
actually applied is still at most `0.04` seconds. -/
theorem c10_frame_delta_cap_witness :
    (loop DEFAULTS 0 100 100 (fun _ => ⟨0, 0, 0, 0, 0, 0⟩) 50000 2
        ⟨true, 0, 1, 1, []⟩).streams
      = (⟨true, 0, 1, 1, []⟩ : Inst).streams.mapIdx
          (fun i s => drawStream DEFAULTS 0 100 100 ((fun _ => (⟨0, 0, 0, 0, 0, 0⟩ : Rng)) i)
            (dtOf 50000 (⟨true, 0, 1, 1, []⟩ : Inst).last) s) ∧
    dtOf 50000 (⟨true, 0, 1, 1, []⟩ : Inst).last ≤ 1/25 :=
  c10_frame_delta_cap DEFAULTS 0 100 100 (fun _ => ⟨0, 0, 0, 0, 0, 0⟩) 50000 2
    ⟨true, 0, 1, 1, []⟩ rfl

/-- C1 (counterexample): the painted opacity can exceed 1.  With the default
configuration, a head segment (`i = 0`) far from the melt zone, and the
twinkle phase at `π/2` (so `Math.sin(phase) = 1`), the segment is painted with
opacity `1 * 0.92 * (1 + 0.18) = 1.0856 > 1`: no clamp is applied after the
dimming and twinkle multipliers. -/
theorem c1_opacity_exceeds_one :
    segPainted DEFAULTS 1000 1 100 0 = true ∧ 1 < segOpacity DEFAULTS 1000 1 100 0 := by
  constructor
  · norm_num [segPainted, segOpacity, segY, headIndex, spacingOf, DEFAULTS]
  · norm_num [segOpacity, segY, headIndex, spacingOf, DEFAULTS]

/-- C1 (amended): for every trail segment of a falling particle, the opacity
used to paint it lies in `[0, 0.92 * (1 + twinkleAmplitude)]` — the clamp to
`≤ 1` is applied only to the head boost, so after the ensemble dimming factor
`0.92` and the twinkle modulation the value may exceed 1 (up to `1.0856` with
the default amplitude `0.18`). -/
theorem c1_opacity_bounds (opt : Config) (H sinPhase y : ℚ) (i : ℕ)
    (hi : i < opt.trailLeds) (hb : 0 ≤ opt.headBoost) (hmz : 0 < opt.meltZone)
    (hs1 : -1 ≤ sinPhase) (hs2 : sinPhase ≤ 1)
    (ht1 : 0 ≤ opt.twinkle) (ht2 : opt.twinkle ≤ 1) :
    0 ≤ segOpacity opt H sinPhase y i ∧
    segOpacity opt H sinPhase y i ≤ 23/25 * (1 + opt.twinkle) := by
  have hL : (0 : ℚ) < (opt.trailLeds : ℚ) := by
    exact_mod_cast Nat.lt_of_le_of_lt (Nat.zero_le i) hi
  have hiL : (i : ℚ) < (opt.trailLeds : ℚ) := by exact_mod_cast hi
  have hbase0 : 0 ≤ 1 - (i : ℚ) / (opt.trailLeds : ℚ) := by
    have h := (div_lt_one hL).mpr hiL
    linarith
  have hbase1 : 1 - (i : ℚ) / (opt.trailLeds : ℚ) ≤ 1 := by
    have h0 : 0 ≤ (i : ℚ) / (opt.trailLeds : ℚ) := div_nonneg (Nat.cast_nonneg i) hL.le
    linarith
  have htwC : 0 ≤ 23/25 * (1 + sinPhase * opt.twinkle) := by nlinarith
  have htwB : 23/25 * (1 + sinPhase * opt.twinkle) ≤ 23/25 * (1 + opt.twinkle) := by
    nlinarith
  have hA1 : 0 ≤ (if i = 0 then min 1 ((1 - (i : ℚ) / (opt.trailLeds : ℚ)) * opt.headBoost)
        else 1 - (i : ℚ) / (opt.trailLeds : ℚ)) ∧
      (if i = 0 then min 1 ((1 - (i : ℚ) / (opt.trailLeds : ℚ)) * opt.headBoost)
        else 1 - (i : ℚ) / (opt.trailLeds : ℚ)) ≤ 1 := by
    split_ifs with h0
    · exact ⟨le_min (by norm_num) (mul_nonneg hbase0 hb), min_le_left _ _⟩
    · exact ⟨hbase0, hbase1⟩
  have key : ∀ A : ℚ, 0 ≤ A → A ≤ 1 →
      0 ≤ (if segY opt y i > H - opt.meltZone then
            A * (1 - min 1 ((segY opt y i - (H - opt.meltZone)) / opt.meltZone)) else A) ∧
      (if segY opt y i > H - opt.meltZone then
            A * (1 - min 1 ((segY opt y i - (H - opt.meltZone)) / opt.meltZone)) else A) ≤ 1 := by
    intro A hA0 hAle
    split_ifs with hmelt
    · have hq0 : 0 ≤ (segY opt y i - (H - opt.meltZone)) / opt.meltZone :=
        div_nonneg (by linarith) hmz.le
      have hmle : min 1 ((segY opt y i - (H - opt.meltZone)) / opt.meltZone) ≤ 1 :=
        min_le_left _ _
      have hm0 : 0 ≤ min 1 ((segY opt y i - (H - opt.meltZone)) / opt.meltZone) :=
        le_min (by norm_num) hq0
      exact ⟨mul_nonneg hA0 (by linarith), mul_le_one₀ hAle (by linarith) (by linarith)⟩
    · exact ⟨hA0, hAle⟩
  simp only [segOpacity]
  exact mul_unit_scale (key _ hA1.1 hA1.2).1 (key _ hA1.1 hA1.2).2 htwC htwB

/-- C1 (amended, witness): the bounds hold at the default configuration for
segment 1 of a particle at height 100 on a 1000-high surface with
`Math.sin(phase) = 1/2`. -/
theorem c1_opacity_bounds_witness :
    0 ≤ segOpacity DEFAULTS 1000 (1/2) 100 1 ∧
    segOpacity DEFAULTS 1000 (1/2) 100 1 ≤ 23/25 * (1 + DEFAULTS.twinkle) :=
  c1_opacity_bounds DEFAULTS 1000 (1/2) 100 1 (by norm_num [DEFAULTS])
    (by norm_num [DEFAULTS]) (by norm_num [DEFAULTS]) (by norm_num)
    (by norm_num) (by norm_num [DEFAULTS]) (by norm_num [DEFAULTS])

/-- C3 (counterexample): a state other than Falling does change x.  A waiting
particle at `x = 77` whose wait expires is respawned with a freshly drawn
`x = rand(0, W)` — here `30` with `u = 0.3` and `W = 100` — so the clause
"no other state changes x" fails (the relocation rules themselves are the
Falling branch's, but Waiting→Falling re-randomizes x). -/
theorem c3_wait_changes_x :
    (⟨77, 5, 0, 0, 0, SState.wait, 0, 1/100⟩ : Stream).state ≠ SState.fall ∧
    (drawStream DEFAULTS 0 100 100 ⟨0, 3/10, 0, 0, 0, 0⟩ (1/50)
        ⟨77, 5, 0, 0, 0, SState.wait, 0, 1/100⟩).x = 30 ∧
    (⟨77, 5, 0, 0, 0, SState.wait, 0, 1/100⟩ : Stream).x = 77 ∧ (30 : ℚ) ≠ 77 := by
  refine ⟨by simp, ?_, rfl, by norm_num⟩
  norm_num [drawStream, makeStream, rand]

/-- C3 (amended): after the Falling-state position update, x equals
`xWrap W (x + vx·dt)` and lies in `[-50, W + 50]`; an x that drops below
`-50` is relocated to `W + 50`, an x that exceeds `W + 50` is relocated to
`-50`, and an in-band x is left alone.  The Flashing and Melting states never
change x; the Waiting state leaves x unchanged until the wait expires, at
which point the respawn re-randomizes x uniformly into `[0, W]` (still inside
the band). -/
theorem c3_x_band (opt : Config) (tau W H : ℚ) (r : Rng) (dt : ℚ) (s : Stream)
    (hW : 0 ≤ W) (hu0 : 0 ≤ r.u1) (hu1 : r.u1 ≤ 1) :
    (s.state = SState.fall →
      (drawStream opt tau W H r dt s).x = xWrap W (s.x + s.vx * dt) ∧
      -50 ≤ (drawStream opt tau W H r dt s).x ∧
      (drawStream opt tau W H r dt s).x ≤ W + 50 ∧
      (s.x + s.vx * dt < -50 → (drawStream opt tau W H r dt s).x = W + 50) ∧
      (W + 50 < s.x + s.vx * dt → (drawStream opt tau W H r dt s).x = -50) ∧
      (-50 ≤ s.x + s.vx * dt → s.x + s.vx * dt ≤ W + 50 →
        (drawStream opt tau W H r dt s).x = s.x + s.vx * dt)) ∧
    (s.state = SState.flash → (drawStream opt tau W H r dt s).x = s.x) ∧
    (s.state = SState.melt → (drawStream opt tau W H r dt s).x = s.x) ∧
    (s.state = SState.wait →
      (0 < s.wait - dt → (drawStream opt tau W H r dt s).x = s.x) ∧
      (s.wait - dt ≤ 0 →
        (drawStream opt tau W H r dt s).x = rand r.u1 0 W ∧
        0 ≤ (drawStream opt tau W H r dt s).x ∧
        (drawStream opt tau W H r dt s).x ≤ W)) := by
  refine ⟨?_, ?_, ?_, ?_⟩
  · intro hs
    have hx : (drawStream opt tau W H r dt s).x = xWrap W (s.x + s.vx * dt) := by
      simp only [drawStream, hs]
      split_ifs <;> rfl
    refine ⟨hx, ?_, ?_, ?_, ?_, ?_⟩
    · rw [hx]
      exact (xWrap_bounds hW).1
    · rw [hx]
      exact (xWrap_bounds hW).2
    · intro hlow
      rw [hx, xWrap_low hlow]
    · intro hhigh
      rw [hx, xWrap_high hW hhigh]
    · intro h1 h2
      rw [hx, xWrap_mid h1 h2]
  · intro hs
    simp only [drawStream, hs]
    split_ifs <;> rfl
  · intro hs
    simp only [drawStream, hs]
    split_ifs <;> rfl
  · intro hs
    constructor
    · intro hpos
      have hne : ¬ (s.wait - dt ≤ 0) := not_le.mpr hpos
      simp [drawStream, hs, hne]
    · intro hle
      have hx : (drawStream opt tau W H r dt s).x = rand r.u1 0 W := by
        simp [drawStream, hs, hle, makeStream]
      refine ⟨hx, ?_, ?_⟩
      · rw [hx]
        unfold rand
        nlinarith
      · rw [hx]
        unfold rand
        nlinarith

/-- C3 (amended, witness): concrete check on a falling particle blown past the
left margin — `x = -40 + 2·(-10) = -60 < -50` relocates to `W + 50 = 150`. -/
theorem c3_x_band_witness :
    (⟨-40, 5, 3, -10, 0, SState.fall, 0, 0⟩ : Stream).state = SState.fall ∧
    ((-40 : ℚ) + (-10) * 2 < -50 ∧
      (drawStream DEFAULTS 0 100 300 ⟨0, 1/2, 0, 0, 0, 0⟩ 2
        ⟨-40, 5, 3, -10, 0, SState.fall, 0, 0⟩).x = 100 + 50) := by
  refine ⟨rfl, by norm_num, ?_⟩
  exact ((c3_x_band DEFAULTS 0 100 300 ⟨0, 1/2, 0, 0, 0, 0⟩ 2
      ⟨-40, 5, 3, -10, 0, SState.fall, 0, 0⟩ (by norm_num) (by norm_num)
      (by norm_num)).1 rfl).2.2.2.1 (by norm_num)

/-- C5 (counterexample): the painted puddle opacity does not equal `1 - p`.
A melting particle with clock 0 advanced by `dt = 0.275` (default melt
duration `0.55`) stays melting with `p = 1/2`, and the circle is filled with
rgba alpha `0.18 * (1 - p) = 0.09`, not `1 - p = 1/2`. -/
theorem c5_alpha_not_one_minus_p :
    (drawStream DEFAULTS 0 100 100 ⟨0, 0, 0, 0, 0, 0⟩ (11/40)
        ⟨50, 99, 0, 0, 0, SState.melt, 0, 0⟩).state = SState.melt ∧
    (drawStream DEFAULTS 0 100 100 ⟨0, 0, 0, 0, 0, 0⟩ (11/40)
        ⟨50, 99, 0, 0, 0, SState.melt, 0, 0⟩).t = 0 + 11/40 ∧
    meltProgress DEFAULTS (0 + 11/40) = 1/2 ∧
    meltAlpha DEFAULTS (0 + 11/40) = 9/100 ∧
    (9/100 : ℚ) ≠ 1 - 1/2 := by
  refine ⟨?_, ?_, ?_, ?_, by norm_num⟩
  · norm_num [drawStream, clamp, DEFAULTS]
  · norm_num [drawStream, clamp, DEFAULTS]
  · norm_num [meltProgress, clamp, DEFAULTS]
  · norm_num [meltAlpha, meltProgress, clamp, DEFAULTS]

/-- C5 (amended): with `p = clamp((t + dt)/meltTime, 0, 1)`, the puddle circle
of a melting particle is painted with radius `10 + 10 p` (linear in `p`) and
rgba alpha `0.18 * (1 - p)` — proportional to `1 - p`, not equal to it
— and when `p ≥ 1` the particle transitions to Waiting in that step, with the
phase clock reset and `waitDuration` drawn from
`spawnGapMin + u * (spawnGapMax - spawnGapMin)`, which lies in
`[spawnGapMin, spawnGapMax]` for `u ∈ [0, 1]` and an ordered gap range. -/
theorem c5_melt_render_and_transition (opt : Config) (tau W H : ℚ) (r : Rng) (dt : ℚ)
    (s : Stream) (hs : s.state = SState.melt)
    (hg : opt.spawnGapMin ≤ opt.spawnGapMax) (hu0 : 0 ≤ r.uGap) (hu1 : r.uGap ≤ 1) :
    0 ≤ meltProgress opt (s.t + dt) ∧ meltProgress opt (s.t + dt) ≤ 1 ∧
    meltRadius opt (s.t + dt) = 10 + 10 * meltProgress opt (s.t + dt) ∧
    meltAlpha opt (s.t + dt) = 9/50 * (1 - meltProgress opt (s.t + dt)) ∧
    (1 ≤ meltProgress opt (s.t + dt) →
      (drawStream opt tau W H r dt s).state = SState.wait ∧
      (drawStream opt tau W H r dt s).t = 0 ∧
      (drawStream opt tau W H r dt s).wait = rand r.uGap opt.spawnGapMin opt.spawnGapMax ∧
      opt.spawnGapMin ≤ (drawStream opt tau W H r dt s).wait ∧
      (drawStream opt tau W H r dt s).wait ≤ opt.spawnGapMax) ∧
    (meltProgress opt (s.t + dt) < 1 →
      (drawStream opt tau W H r dt s).state = SState.melt ∧
      (drawStream opt tau W H r dt s).t = s.t + dt) := by
  refine ⟨le_max_left _ _, ?_, by unfold meltRadius; ring, by unfold meltAlpha; ring, ?_, ?_⟩
  · unfold meltProgress clamp
    have h1 : min 1 ((s.t + dt) / opt.meltTime) ≤ 1 := min_le_left _ _
    exact max_le (by norm_num) h1
  · intro hp
    have hp' : 1 ≤ clamp ((s.t + dt) / opt.meltTime) 0 1 := by
      unfold meltProgress at hp
      exact hp
    have hw : (drawStream opt tau W H r dt s).wait
        = rand r.uGap opt.spawnGapMin opt.spawnGapMax := by
      simp [drawStream, hs, ge_iff_le, hp']
    refine ⟨?_, ?_, hw, ?_, ?_⟩
    · simp [drawStream, hs, ge_iff_le, hp']
    · simp [drawStream, hs, ge_iff_le, hp']
    · rw [hw]
      unfold rand
      nlinarith
    · rw [hw]
      unfold rand
      nlinarith
  · intro hp
    have hp' : ¬ (1 ≤ clamp ((s.t + dt) / opt.meltTime) 0 1) := by
      unfold meltProgress at hp
      exact not_le.mpr hp
    constructor
    · simp [drawStream, hs, ge_iff_le, hp']
    · simp [drawStream, hs, ge_iff_le, hp']

/-- C5 (amended, witness): at the default configuration, a melting particle
whose clock reaches exactly the melt duration (`p = 1`) transitions to
Waiting with `waitDuration = 0.08 + 0.5 * (0.60 - 0.08) = 0.34`. -/
theorem c5_melt_render_and_transition_witness :
    (⟨50, 99, 0, 0, 0, SState.melt, 0, 0⟩ : Stream).state = SState.melt ∧
    1 ≤ meltProgress DEFAULTS ((0 : ℚ) + 11/20) ∧
    (drawStream DEFAULTS 0 100 100 ⟨1/2, 0, 0, 0, 0, 0⟩ (11/20)
        ⟨50, 99, 0, 0, 0, SState.melt, 0, 0⟩).state = SState.wait ∧
    (drawStream DEFAULTS 0 100 100 ⟨1/2, 0, 0, 0, 0, 0⟩ (11/20)
        ⟨50, 99, 0, 0, 0, SState.melt, 0, 0⟩).wait
      = rand (1/2) DEFAULTS.spawnGapMin DEFAULTS.spawnGapMax := by
  have h := c5_melt_render_and_transition DEFAULTS 0 100 100 ⟨1/2, 0, 0, 0, 0, 0⟩ (11/20)
    ⟨50, 99, 0, 0, 0, SState.melt, 0, 0⟩ rfl (by norm_num [DEFAULTS]) (by norm_num)
    (by norm_num)
  have hp : 1 ≤ meltProgress DEFAULTS ((0 : ℚ) + 11/20) := by
    norm_num [meltProgress, clamp, DEFAULTS]
  exact ⟨rfl, hp, (h.2.2.2.2.1 hp).1, (h.2.2.2.2.1 hp).2.2.1⟩

/-- C6: each Waiting update decrements `waitDuration` by `dt`; once it is
`≤ 0` the particle respawns as Falling with x, fall speed, drift and twinkle
phase drawn by exactly the same formulas as at initial creation
(`makeStream true` on the same random draws), while y is drawn from
`rand(-H * 0.7, -60)` — a strictly negative range, so it re-enters from above
— whereas the construction-time rule (`first = true`) scatters y across
`rand(-H, H)`. -/
theorem c6_wait_respawn (opt : Config) (tau W H : ℚ) (r : Rng) (dt : ℚ) (s : Stream)
    (hs : s.state = SState.wait) (hH : 0 < H) (hu0 : 0 ≤ r.u2) (hu1 : r.u2 ≤ 1) :
    (drawStream opt tau W H r dt s).wait = s.wait - dt ∧
    (s.wait - dt ≤ 0 →
      (drawStream opt tau W H r dt s).state = SState.fall ∧
      (drawStream opt tau W H r dt s).t = 0 ∧
      (drawStream opt tau W H r dt s).x
        = (makeStream opt tau W H true r.u1 r.u2 r.u3 r.u4 r.u5).x ∧
      (drawStream opt tau W H r dt s).vy
        = (makeStream opt tau W H true r.u1 r.u2 r.u3 r.u4 r.u5).vy ∧
      (drawStream opt tau W H r dt s).vx
        = (makeStream opt tau W H true r.u1 r.u2 r.u3 r.u4 r.u5).vx ∧
      (drawStream opt tau W H r dt s).phase
        = (makeStream opt tau W H true r.u1 r.u2 r.u3 r.u4 r.u5).phase ∧
      (drawStream opt tau W H r dt s).y = rand r.u2 (-H * (7/10)) (-60) ∧
      (drawStream opt tau W H r dt s).y < 0 ∧
      (makeStream opt tau W H true r.u1 r.u2 r.u3 r.u4 r.u5).y = rand r.u2 (-H) H) ∧
    (0 < s.wait - dt →
      (drawStream opt tau W H r dt s).state = SState.wait ∧
      (drawStream opt tau W H r dt s).x = s.x ∧
      (drawStream opt tau W H r dt s).y = s.y ∧
      (drawStream opt tau W H r dt s).vy = s.vy ∧
      (drawStream opt tau W H r dt s).vx = s.vx) := by
  refine ⟨?_, ?_, ?_⟩
  · by_cases hle : s.wait - dt ≤ 0 <;> simp [drawStream, hs, hle]
  · intro hle
    refine ⟨?_, ?_, ?_, ?_, ?_, ?_, ?_, ?_, ?_⟩
    · simp [drawStream, hs, hle]
    · simp [drawStream, hs, hle]
    · simp [drawStream, hs, hle, makeStream]
    · simp [drawStream, hs, hle, makeStream]
    · simp [drawStream, hs, hle, makeStream]
    · simp [drawStream, hs, hle, makeStream]
    · simp [drawStream, hs, hle, makeStream]
    · have hy : (drawStream opt tau W H r dt s).y = rand r.u2 (-H * (7/10)) (-60) := by
        simp [drawStream, hs, hle, makeStream]
      rw [hy]
      unfold rand
      rcases le_or_lt 60 (H * (7/10)) with hc | hc
      · have h3 : r.u2 * (-60 - -H * (7/10)) ≤ 1 * (-60 - -H * (7/10)) :=
          mul_le_mul_of_nonneg_right hu1 (by linarith)
        linarith
      · have h3 : r.u2 * (-60 - -H * (7/10)) ≤ r.u2 * 0 :=
          mul_le_mul_of_nonneg_left (by linarith) hu0
        rw [mul_zero] at h3
        linarith
    · simp [makeStream]
  · intro hpos
    have hne : ¬ (s.wait - dt ≤ 0) := not_le.mpr hpos
    refine ⟨?_, ?_, ?_, ?_, ?_⟩ <;> simp [drawStream, hs, hne]

/-- C6 (witness): with `W = 100`, `H = 200` and random draws
`(u1, …, u5) = (0.3, 0.5, 0, 1, 0)`, an expired wait respawns the particle at
`x = 30`, `y = rand(0.5, -140, -60) = -100 < 0`, with speed, drift and phase
exactly as `makeStream true` would draw them. -/
theorem c6_wait_respawn_witness :
    (drawStream DEFAULTS 0 100 200 ⟨0, 3/10, 1/2, 0, 1, 0⟩ (1/50)
        ⟨77, 5, 300, -3, 1, SState.wait, 0, 1/100⟩).wait = 1/100 - 1/50 ∧
    (drawStream DEFAULTS 0 100 200 ⟨0, 3/10, 1/2, 0, 1, 0⟩ (1/50)
        ⟨77, 5, 300, -3, 1, SState.wait, 0, 1/100⟩).state = SState.fall ∧
    (drawStream DEFAULTS 0 100 200 ⟨0, 3/10, 1/2, 0, 1, 0⟩ (1/50)
        ⟨77, 5, 300, -3, 1, SState.wait, 0, 1/100⟩).y = rand (1/2) (-200 * (7/10)) (-60) ∧
    (drawStream DEFAULTS 0 100 200 ⟨0, 3/10, 1/2, 0, 1, 0⟩ (1/50)
        ⟨77, 5, 300, -3, 1, SState.wait, 0, 1/100⟩).y < 0 := by
  have h := c6_wait_respawn DEFAULTS 0 100 200 ⟨0, 3/10, 1/2, 0, 1, 0⟩ (1/50)
    ⟨77, 5, 300, -3, 1, SState.wait, 0, 1/100⟩ rfl (by norm_num) (by norm_num) (by norm_num)
  have hle : (⟨77, 5, 300, -3, 1, SState.wait, 0, 1/100⟩ : Stream).wait - 1/50 ≤ 0 := by
    norm_num
  exact ⟨h.1, (h.2.1 hle).1, (h.2.1 hle).2.2.2.2.2.2.1, (h.2.1 hle).2.2.2.2.2.2.2.1⟩

/-- C7: on every lifecycle transition — whichever of the four states the
particle leaves during an update step — the phase clock `t` is reset to 0 in
that same step. -/
theorem c7_phase_clock_reset (opt : Config) (tau W H : ℚ) (r : Rng) (dt : ℚ) (s : Stream)
    (hchange : (drawStream opt tau W H r dt s).state ≠ s.state) :
    (drawStream opt tau W H r dt s).t = 0 := by
  cases hst : s.state
  · by_cases hy : s.y + s.vy * dt > H - 2
    · simp [drawStream, hst, hy]
    · simp [drawStream, hst, hy] at hchange
  · by_cases ht : opt.flashTime ≤ s.t + dt
    · simp [drawStream, hst, ge_iff_le, ht]
    · simp [drawStream, hst, ge_iff_le, ht] at hchange
  · by_cases hp : 1 ≤ clamp ((s.t + dt) / opt.meltTime) 0 1
    · simp [drawStream, hst, ge_iff_le, hp]
    · simp [drawStream, hst, ge_iff_le, hp] at hchange
  · by_cases hw : s.wait - dt ≤ 0
    · simp [drawStream, hst, hw]
    · simp [drawStream, hst, hw] at hchange

/-- C7 (witness): a melting particle whose progress reaches 1 transitions to
Waiting with its phase clock reset to 0 on that very step. -/
theorem c7_phase_clock_reset_witness :
    (drawStream DEFAULTS 0 100 100 ⟨1/4, 0, 0, 0, 0, 0⟩ (1/10)
        ⟨50, 99, 0, 0, 0, SState.melt, 1/2, 0⟩).t = 0 :=
  c7_phase_clock_reset DEFAULTS 0 100 100 ⟨1/4, 0, 0, 0, 0, 0⟩ (1/10)
    ⟨50, 99, 0, 0, 0, SState.melt, 1/2, 0⟩
    (by norm_num [drawStream, clamp, DEFAULTS]; decide)

/-- C8 (counterexample): "skipped exactly when outside `[-40, H + 40]`" fails:
with the default configuration on a 160-high surface, the head segment of a
particle at `y = 160` has candidate `ly = 160`, inside `[-40, 200]`, yet it is
not painted — the melt-zone attenuation drives its opacity to 0 and the
second skip (`a ≤ 0`) fires. -/
theorem c8_inrange_segment_skipped :
    ¬ (segY DEFAULTS 160 0 < -40 ∨ segY DEFAULTS 160 0 > 160 + 40) ∧
    segPainted DEFAULTS 160 0 160 0 = false := by
  constructor
  · norm_num [segY, headIndex, spacingOf, DEFAULTS]
  · norm_num [segPainted, segOpacity, segY, headIndex, spacingOf, DEFAULTS]

/-- C8 (amended): the candidate segment y is
`floor(y / spacing) * spacing - i * spacing`, and the segment is painted if
and only if that y lies inside `[-40, H + 40]` AND the computed opacity is
positive — outside the band it is culled, but an in-band segment whose
opacity is `≤ 0` is skipped as well. -/
theorem c8_candidate_y_and_skip_rule (opt : Config) (H sinPhase y : ℚ) (i : ℕ) :
    segY opt y i = (⌊y / spacingOf opt⌋ : ℚ) * spacingOf opt - (i : ℚ) * spacingOf opt ∧
    (segPainted opt H sinPhase y i = true ↔
      (-40 ≤ segY opt y i ∧ segY opt y i ≤ H + 40 ∧
        0 < segOpacity opt H sinPhase y i)) := by
  constructor
  · unfold segY headIndex
    push_cast
    ring
  · constructor
    · intro hp
      by_cases h1 : segY opt y i < -40 ∨ segY opt y i > H + 40
      · simp [segPainted, h1] at hp
      · by_cases h2 : segOpacity opt H sinPhase y i ≤ 0
        · simp [segPainted, h1, h2] at hp
        · push_neg at h1 h2
          exact ⟨h1.1, h1.2, h2⟩
    · rintro ⟨ha, hb, hc⟩
      have h1 : ¬ (segY opt y i < -40 ∨ segY opt y i > H + 40) := by
        push_neg
        exact ⟨ha, hb⟩
      have h2 : ¬ (segOpacity opt H sinPhase y i ≤ 0) := not_le.mpr hc
      simp [segPainted, h1, h2]

end LightSnowFx
